import Mathlib

/-!
Verification of the nautilus service-lifecycle layer.

The development shallowly embeds the lifecycle and messaging coordination code
of the repository:

* `src/Service.py` — the synchronous (flask-based) `Service` class: its
  constructor, `run` and `stop` methods (`FService` below);
* `src/nautilus/services/service.py` — the asynchronous (aiohttp-based)
  `Service` class: `ServiceMetaClass.__init__`, `Service.__init__`,
  `init_action_handler`, `init_routes`, the `route` class decorator and
  `Service.run` with its `try/except KeyboardInterrupt/finally` structure
  (`NService`, `nrun`, the naming and route definitions below);
* `src/nautilus/services/serviceManager.py` — `ServiceManager.run` and the
  `runserver` command (`managerRun`, `runserverArgs` below).

Stateful Python code is embedded as pure functions that return the trace of
externally visible calls (`Ev` events) together with the exception, if any,
that escapes the call (`PyError`).  Attribute assignment is tracked with
`Option` so that access to a never-assigned attribute is visible as an
`AttributeError`, exactly as in Python.

The `ActionConsumer` class is imported by `src/Service.py` from
`nautilus.network.messaging.consumers`, a module that is not part of the
source tree here; it is modelled from the specification (section 4.2), and
every such definition carries a doc comment starting `Modelled from the
spec:`.
-/

namespace Spec2Proof

/-- Python exception values that the embedded code can raise. -/
inductive PyError
  | nameErr (n : String)
  | attrErr (n : String)
  | keyboardInterrupt
  | userErr (s : String)
deriving DecidableEq, Repr

/-- Externally visible calls made by the lifecycle code, in program order. -/
inductive Ev
  /-- flask `Service.run`: `actionThread.start()` on the consumer thread. -/
  | threadStart
  /-- flask `Service.run`: `self.app.run(...)`, the foreground serving call. -/
  | appRun
  /-- nautilus `Service.run`: `self.event_broker.start()`. -/
  | brokerStart
  /-- nautilus `Service.run`: `self.app.make_handler()`. -/
  | makeHandler
  /-- nautilus `Service.run` finally block: `self.event_broker.stop()`. -/
  | brokerStop
  /-- nautilus `Service.run` finally block: the `self._server_handler.close()` call. -/
  | serverCloseCall
  /-- nautilus `Service.run`: `self.loop.run_forever()`, the foreground loop. -/
  | runForever
  /-- `ServiceManager.run`: the `print("Closing due to error: ...")` call. -/
  | printClosing
  /-- flask `Service.stop`: the `self.actionConsumer.stop()` call. -/
  | consumerStopCall
  /-- a deregistration round-trip to the service directory; no code under
      `src/` ever performs one, so no embedded function emits this event. -/
  | deregisterCall
deriving DecidableEq, Repr

/-- Modelled from the spec: the `ActionConsumer` state machine of section 4.2
(`idle → running → draining → stopped`); the class itself, imported from
`nautilus.network.messaging.consumers`, is not in the source tree. -/
inductive ConsumerState
  | idle
  | running
  | draining
  | stopped
deriving DecidableEq, Repr

/-- An action message as described in the spec (section 6): routing metadata
plus an opaque payload. -/
structure ActionMessage where
  actionType : String
  payload : List Nat
  correlationId : String
deriving DecidableEq, Repr

/-- Observable per-message activity of the consumer loop: the dispatch of a
message to the handler, and the logging of a handler failure with the
message's correlationId. -/
inductive ConsumerLog
  | dispatch (cid : String)
  | failure (cid : String)
deriving DecidableEq, Repr

/-- Modelled from the spec: one dispatch of the `ActionConsumer` loop
(section 4.2) — the message is handed to the handler; a handler failure is
caught and logged with the message's `correlationId` and does not terminate
the loop.  The handler returns `true` for Ok and `false` for `HandlerError`. -/
def dispatchStep (handler : ActionMessage → Bool) (m : ActionMessage) : List ConsumerLog :=
  if handler m then [ConsumerLog.dispatch m.correlationId]
  else [ConsumerLog.dispatch m.correlationId, ConsumerLog.failure m.correlationId]

/-- Modelled from the spec: the consumer pull loop dispatching each received
message in order (section 4.2, ordering guarantee). -/
def consumeAll (handler : ActionMessage → Bool) : List ActionMessage → List ConsumerLog
  | [] => []
  | m :: rest => dispatchStep handler m ++ consumeAll handler rest

/-- Modelled from the spec: `ActionConsumer.run` transitions `idle → running`
and, absent a stop signal, the loop is still in `running` after any finite
sequence of dispatches (section 4.2). -/
def consumerRun (handler : ActionMessage → Bool) (msgs : List ActionMessage) :
    ConsumerState × List ConsumerLog :=
  (ConsumerState.running, consumeAll handler msgs)

/-- The wrapper object `self.actionConsumer` held by the flask `Service`
(`src/Service.py` line 15); only its lifecycle state is relevant here. -/
structure Consumer where
  state : ConsumerState
deriving DecidableEq, Repr

/-- Modelled from the spec: `ActionConsumer.stop` signals the loop, drains the
in-flight dispatch and transitions to `stopped` (section 4.2); it returns, it
does not raise. -/
def consumerStop (_c : Consumer) : Consumer :=
  { state := ConsumerState.stopped }

/-- The flask `Service` of `src/Service.py`: the only lifecycle-relevant field
is `self.actionConsumer` (`None` or a wrapper). -/
structure FService where
  actionConsumer : Option Consumer
deriving DecidableEq, Repr

/-- flask `Service.__init__` (`src/Service.py` lines 11-18): the consumer
wrapper is constructed exactly when an `actionHandler` is supplied
(`ActionConsumer(actionHandler = actionHandler) if actionHandler else None`). -/
def mkFService (actionHandler : Bool) : FService :=
  { actionConsumer := if actionHandler then some { state := ConsumerState.idle } else none }

/-- flask `Service.run` (`src/Service.py` lines 40-48), after argument
parsing: if a consumer exists, a `threading.Thread` running `actionConsumer.run`
is started, then `self.app.run(...)` enters the foreground serving loop. -/
def FService.runEvents (s : FService) : List Ev :=
  (if s.actionConsumer.isSome then [Ev.threadStart] else []) ++ [Ev.appRun]

/-- flask `Service.stop` (`src/Service.py` lines 51-55):
`if self.actionConsumer: self.actionConsumer.stop()`.  The function is total:
no statement in its body raises (the modelled `consumerStop` returns). -/
def FService.stopF (s : FService) : FService × List Ev :=
  match s.actionConsumer with
  | some c => ({ actionConsumer := some (consumerStop c) }, [Ev.consumerStopCall])
  | none => (s, [])

/-- The nautilus `Service` of `src/nautilus/services/service.py`: the
lifecycle-relevant attributes set by `__init__`.  `_server_handler` is the
placeholder assigned `None` at line 103. -/
structure NService where
  action_handler : Bool
  event_broker : Bool
deriving DecidableEq, Repr

/-- nautilus `Service.__init__` together with `init_action_handler`
(lines 92, 155-161): `self.event_broker = None`, then
`if self.action_handler: self.event_broker = self.action_handler()`. -/
def mkNService (action_handler : Bool) : NService :=
  { action_handler := action_handler,
    event_broker := if action_handler then true else false }

/-- Outcome of the `try` body of nautilus `Service.run` (lines 179-196).
The body executes `event_broker.start()` (when a broker exists) and
`self.app.make_handler()`, and then evaluates
`loop.create_server(http_handler, host, port)`: the global name `loop` is
unbound in the module, so this line raises `NameError` on every call — the
foreground `self.loop.run_forever()` is never reached.  A keyboard interrupt
arriving during the body is caught by `except KeyboardInterrupt: pass`,
leaving no pending exception. -/
def nrunBodyOutcome (interrupted : Bool) : Option PyError :=
  if interrupted then none else some (PyError.nameErr "loop")

/-- Outcome of the `finally` block of nautilus `Service.run` (lines 200-222).
After stopping the broker, the inner `try` evaluates
`self._server_handler.close()` with `self._server_handler` still `None`
(assigned only at the unreachable line 193), raising
`AttributeError` — which `except UnboundLocalError` does not catch, so the
exception escapes the `finally` block, skipping `self.loop.close()`. -/
def nrunCleanupOutcome : Option PyError :=
  some (PyError.attrErr "close")

/-- nautilus `Service.run` (lines 164-222) as a trace and escaping exception.
`interrupted` says whether a keyboard interrupt arrives during the `try` body
(modelled as arriving right after the broker start).  Python `finally`
semantics: an exception raised inside `finally` replaces any pending one. -/
def nrun (s : NService) (interrupted : Bool) : List Ev × Option PyError :=
  ((if s.event_broker then [Ev.brokerStart] else []) ++
     (if interrupted then [] else [Ev.makeHandler]) ++
     (if s.event_broker then [Ev.brokerStop] else []) ++ [Ev.serverCloseCall],
   match nrunCleanupOutcome with
   | some e => some e
   | none => nrunBodyOutcome interrupted)

/-- The two `Service` classes of the repository that a `ServiceManager` can
wrap: the flask one of `src/Service.py` and the nautilus one of
`src/nautilus/services/service.py`. -/
inductive ServiceClass
  | flaskService
  | nautilusService
deriving DecidableEq, Repr

/-- `ServiceManager.run` (`src/nautilus/services/serviceManager.py`
lines 70-83) driving the `runserver` command (lines 22-41), parameterized by
which `Service` class the manager wraps.  `runserver` sets
`self._running_service = True`, then evaluates
`self.service_instance = self.service(config=self.service_config)` and
`self.service_instance.run(host=host, port=int(port))`; the `except
Exception` handler of `ServiceManager.run` prints and — since
`_running_service` is `True` — evaluates `self.service_instance.stop()`
before `raise err`.

* With the flask class, `__init__(self, schema=None, actionHandler=None)`
  accepts no `config` keyword, so construction raises `TypeError` on every
  invocation, before `service_instance` is assigned; the handler prints and
  the read of the missing `self.service_instance` attribute raises
  `AttributeError`, replacing the `TypeError` — `raise err` is unreached.

* With the nautilus class, `__init__` accepts `config` and `run` accepts
  `host`/`port`.  `ctorFail` says whether construction raises (the
  constructor runs configured subclass and `init_app` code); if it does,
  `service_instance` is again unassigned and the handler's attribute read
  raises `AttributeError`.  If construction succeeds, `run` executes
  (`nrun`); whenever it escapes with an exception, the handler prints and
  evaluates `self.service_instance.stop()` — the nautilus `Service` defines
  no `stop` method, so that call raises `AttributeError` and `raise err` is
  unreached; the original error is again lost. -/
def managerRun (cls : ServiceClass) (ctorFail : Option PyError)
    (interrupted : Bool) (hasHandler : Bool) : List Ev × Option PyError :=
  match cls with
  | ServiceClass.flaskService =>
      ([Ev.printClosing], some (PyError.attrErr "service_instance"))
  | ServiceClass.nautilusService =>
      match ctorFail with
      | some _ => ([Ev.printClosing], some (PyError.attrErr "service_instance"))
      | none =>
          match nrun (mkNService hasHandler) interrupted with
          | (evs, some _) => (evs ++ [Ev.printClosing], some (PyError.attrErr "stop"))
          | (evs, none) => (evs, none)

/-- The options of the `runserver` click command, `none` meaning the option
was omitted on the command line. -/
structure CliOpts where
  port : Option Nat
  host : Option String
  debug : Option Bool
deriving DecidableEq, Repr

/-- Option defaults of `runserver` (`src/nautilus/services/serviceManager.py`
lines 22-26): `--port` 8000, `--host` "127.0.0.1", `--debug` flag off. -/
def runserverArgs (o : CliOpts) : Nat × String × Bool :=
  (o.port.getD 8000, o.host.getD "127.0.0.1", o.debug.getD false)

/-- Parameter defaults of nautilus `Service.run`
(`src/nautilus/services/service.py` line 164):
`def run(self, host="localhost", port=8000, ...)`. -/
def serviceRunArgs (host : Option String) (port : Option Nat) : String × Nat :=
  (host.getD "localhost", port.getD 8000)

/-- Argparse defaults of flask `Service.run` (`src/Service.py` lines 24-31):
`--port` 8000, `--debug` store_true (off by default), `--secret`
"supersecret".  No `--host` option exists. -/
def flaskArgs (port : Option Nat) (debugFlag : Option Bool) (secret : Option String) :
    Nat × Bool × String :=
  (port.getD 8000, debugFlag.getD false, secret.getD "supersecret")

/-- Modelled from the spec: the directory-registration configuration —
`autoRegister` (default true) and `ttl` (default 30 seconds, section 6).  No
`ServiceDirectoryClient`, `HealthSignal` or registration code exists under
`src/`, so these recognized options have no source counterpart. -/
def specConfigDefaults : Bool × Nat :=
  (true, 30)

/-- Python truthiness of an optional string attribute: `None` and the empty
string are falsy, any other string is truthy. -/
def pyTruthy : Option String → Bool
  | none => false
  | some s => if s = "" then false else true

/-- `ServiceMetaClass.__init__` (`src/nautilus/services/service.py`
lines 22-30): `if not cls.name or cls.name == 'Service': cls.name = name`,
where `name` is the class record name and `attr` the looked-up value of the
class-level `name` attribute before the check. -/
def metaclassName (recordName : String) (attr : Option String) : Option String :=
  if pyTruthy attr = false ∨ attr = some "Service" then some recordName else attr

/-- Python `a or b` on optional string values. -/
def pyOrName (a b : Option String) : Option String :=
  if pyTruthy a then a else b

/-- nautilus `Service.__init__` line 89:
`self.name = name or self.name or type(self).name` — at this point the
instance has no own `name`, so both `self.name` and `type(self).name` denote
the class attribute produced by the metaclass. -/
def instanceName (ctorArg : Option String) (classAttr : Option String) : Option String :=
  pyOrName ctorArg (pyOrName classAttr classAttr)

/-- The class hierarchy relevant to the route registry: the `Service` base
class and two representative user subclasses (the example services of
`src/example/recipeIngredients.py`).  Only the body of `Service` assigns
`_routes` (`src/nautilus/services/service.py` line 79); no subclass does. -/
inductive SClass
  | service
  | ingredientsSrv
  | recipesSrv
deriving DecidableEq, Repr

/-- Method resolution order of each class, from the class declarations. -/
def mro : SClass → List SClass
  | SClass.service => [SClass.service]
  | SClass.ingredientsSrv => [SClass.ingredientsSrv, SClass.service]
  | SClass.recipesSrv => [SClass.recipesSrv, SClass.service]

/-- Whether a class body assigns `_routes`; only `Service` does (line 79). -/
def ownsRoutes : SClass → Bool
  | SClass.service => true
  | SClass.ingredientsSrv => false
  | SClass.recipesSrv => false

/-- Python attribute lookup for `_routes`: the first class along the MRO whose
body assigns it. -/
def routesOwner (c : SClass) : Option SClass :=
  (mro c).find? ownsRoutes

/-- A registered route: a url and the request-handler class added for it. -/
structure Route where
  url : String
  request_handler : String
deriving DecidableEq, Repr

/-- Storage of the `_routes` class attribute: the list owned by each class that
assigns one. -/
structure RouteHeap where
  routesOf : SClass → List Route

/-- The `Service.route` class-method decorator
(`src/nautilus/services/service.py` lines 243-277):
`cls._routes.append(dict(url=route, request_handler=wrapped_class))` — the
lookup `cls._routes` resolves along the MRO and `append` mutates the owner's
list in place. -/
def routeDecorator (h : RouteHeap) (cls : SClass) (r : Route) : RouteHeap :=
  match routesOwner cls with
  | some o => { routesOf := fun c => if c = o then h.routesOf c ++ [r] else h.routesOf c }
  | none => h

/-- The default `/` endpoint installed by `init_routes` (line 151). -/
def graphqlRoute : Route :=
  { url := "/", request_handler := "GraphQLRequestHandler" }

/-- The default `/graphiql` endpoint installed by `init_routes` (line 153). -/
def graphiqlRoute : Route :=
  { url := "/graphiql", request_handler := "GraphiQLRequestHandler" }

/-- `Service.init_routes` (lines 138-153), run by `init_app` during
`__init__`: every entry of `self._routes` (resolved via the MRO) is installed
with `add_http_endpoint`, followed by the default api and graphiql
endpoints. -/
def installedRoutes (h : RouteHeap) (cls : SClass) : List Route :=
  (match routesOwner cls with
   | some o => h.routesOf o
   | none => []) ++ [graphqlRoute, graphiqlRoute]

/-- Projection of a consumer log entry to the correlationId it dispatched. -/
def dispatchCid : ConsumerLog → Option String
  | ConsumerLog.dispatch cid => some cid
  | ConsumerLog.failure _ => none

/-- The handler of the spec's test scenario (section 8): fails exactly on
`actionType == "X"`. -/
def scenarioHandler (m : ActionMessage) : Bool :=
  if m.actionType = "X" then false else true

/-- Scenario message A. -/
def msgA : ActionMessage :=
  { actionType := "A", payload := [], correlationId := "cid-a" }

/-- Scenario message X, the one whose handler fails. -/
def msgX : ActionMessage :=
  { actionType := "X", payload := [], correlationId := "cid-x" }

/-- Scenario message B. -/
def msgB : ActionMessage :=
  { actionType := "B", payload := [], correlationId := "cid-b" }

/- ------------------------------------------------------------------ -/
/- Helper lemmas                                                       -/
/- ------------------------------------------------------------------ -/

theorem pyTruthy_iff (v : Option String) :
    pyTruthy v = true ↔ ∃ s, v = some s ∧ s ≠ "" := by
  cases v with
  | none => simp [pyTruthy]
  | some s =>
      by_cases hs : s = "" <;> simp [pyTruthy, hs]

theorem pyOrName_self (v : Option String) : pyOrName v v = v := by
  unfold pyOrName
  split <;> rfl

theorem routesOwner_base (c : SClass) : routesOwner c = some SClass.service := by
  cases c <;> rfl

theorem consumeAll_cids (handler : ActionMessage → Bool) (msgs : List ActionMessage) :
    List.filterMap dispatchCid (consumeAll handler msgs) =
      msgs.map (fun m => m.correlationId) := by
  induction msgs with
  | nil => rfl
  | cons m rest ih =>
      by_cases hm : handler m = true <;>
        simp [consumeAll, dispatchStep, hm, dispatchCid, ih]

theorem consumeAll_failure_mem (handler : ActionMessage → Bool) :
    ∀ (msgs : List ActionMessage) (k : Nat) (hk : k < msgs.length),
      handler (msgs.get ⟨k, hk⟩) = false →
      ConsumerLog.failure (msgs.get ⟨k, hk⟩).correlationId ∈ consumeAll handler msgs := by
  intro msgs
  induction msgs with
  | nil => intro k hk; exact absurd hk (Nat.not_lt_zero k)
  | cons m rest ih =>
      intro k hk hfail
      cases k with
      | zero =>
          have hm : handler m = false := hfail
          simp [consumeAll, dispatchStep, hm]
      | succ k2 =>
          have hk2 : k2 < rest.length := Nat.lt_of_succ_lt_succ hk
          exact List.mem_append_right _ (ih k2 hk2 hfail)

/- ------------------------------------------------------------------ -/
/- Claim theorems                                                      -/
/- ------------------------------------------------------------------ -/

/-- Claim C1: in both Service implementations a consumer / event broker is
constructed exactly when an action handler is configured; when present it is
started (flask: on a background thread) before the foreground serving loop is
entered, and when absent no consumer event ever appears.  In the nautilus
implementation `run_forever` is never reached, so the broker start precedes
any foreground-loop entry there as well. -/
theorem c1_consumer_started_before_foreground :
    ∀ hb : Bool,
      (mkFService hb).actionConsumer.isSome = hb ∧
      (mkFService hb).runEvents =
        (if hb then [Ev.threadStart, Ev.appRun] else [Ev.appRun]) ∧
      (mkNService hb).event_broker = hb ∧
      ∀ interrupted : Bool,
        Ev.runForever ∉ (nrun (mkNService hb) interrupted).1 ∧
        (if hb then (nrun (mkNService hb) interrupted).1.head? = some Ev.brokerStart
         else Ev.brokerStart ∉ (nrun (mkNService hb) interrupted).1) := by
  decide

/-- Claim C2: on every termination path of nautilus `Service.run` (keyboard
interrupt swallowed by the except clause, or a fatal error in the body) the
finally block signals the event broker to stop strictly before the attempt to
release the foreground server's resources (`self._server_handler.close()`);
and the explicit-stop path, flask `Service.stop`, only stops the consumer and
touches no server resource at all. -/
theorem c2_broker_stop_before_server_release :
    (∀ interrupted : Bool,
       Ev.brokerStop ∈ (nrun (mkNService true) interrupted).1 ∧
       Ev.serverCloseCall ∈ (nrun (mkNService true) interrupted).1 ∧
       List.indexOf Ev.brokerStop (nrun (mkNService true) interrupted).1 <
         List.indexOf Ev.serverCloseCall (nrun (mkNService true) interrupted).1) ∧
    (∀ s : FService,
       (FService.stopF s).2 =
         if s.actionConsumer.isSome then [Ev.consumerStopCall] else []) := by
  constructor
  · decide
  · intro s
    obtain ⟨ac⟩ := s
    cases ac <;> rfl

/-- Claim C3: on every realizable start-failure path through
`ServiceManager.run` the cleanup itself raises `AttributeError` and the
original error is never propagated.  With the flask service, construction
raises `TypeError` on the `config` keyword and the handler's read of the
never-assigned `service_instance` raises `AttributeError`; with the nautilus
service, `run` always escapes with an exception (the event broker is stopped
inside its finally block first) and the handler's
`self.service_instance.stop()` raises `AttributeError` because that class
defines no `stop` method — so, whatever the manager wraps and however the
start fails, the surfaced error is an `AttributeError` from the cleanup, not
the original failure. -/
theorem c3_startup_failure_original_error_never_propagated :
    managerRun ServiceClass.nautilusService none false true =
      ([Ev.brokerStart, Ev.makeHandler, Ev.brokerStop, Ev.serverCloseCall, Ev.printClosing],
       some (PyError.attrErr "stop")) ∧
    managerRun ServiceClass.flaskService none true true =
      ([Ev.printClosing], some (PyError.attrErr "service_instance")) ∧
    ∀ (cls : ServiceClass) (interrupted hasHandler : Bool),
      (managerRun cls none interrupted hasHandler).2 = some (PyError.attrErr "stop") ∨
      (managerRun cls none interrupted hasHandler).2 =
        some (PyError.attrErr "service_instance") := by
  refine ⟨by decide, by decide, ?_⟩
  intro cls interrupted hasHandler
  cases cls
  · right; rfl
  · left; rfl

/-- Claim C4: a keyboard interrupt during nautilus `Service.run` does not lead
to a clean return — the cleanup raises `AttributeError` (the `finally` block
calls `self._server_handler.close()` on `None`, and `except UnboundLocalError`
does not catch `AttributeError`), so `run` escapes with a propagated
exception, with or without an event broker. -/
theorem c4_interrupt_exits_with_exception :
    nrun (mkNService true) true =
      ([Ev.brokerStart, Ev.brokerStop, Ev.serverCloseCall],
       some (PyError.attrErr "close")) ∧
    nrun (mkNService false) true =
      ([Ev.serverCloseCall], some (PyError.attrErr "close")) := by
  decide

/-- Claim C5: flask `Service.stop` is idempotent — a second stop leaves the
service state exactly where the first stop left it, the embedded `stopF` is a
total function (no raising path exists in its body), and no stop call, first
or second, performs a deregistration round-trip. -/
theorem c5_stop_idempotent :
    ∀ s : FService,
      (FService.stopF (FService.stopF s).1).1 = (FService.stopF s).1 ∧
      Ev.deregisterCall ∉ (FService.stopF (FService.stopF s).1).2 ∧
      Ev.deregisterCall ∉ (FService.stopF s).2 := by
  intro s
  obtain ⟨ac⟩ := s
  cases ac <;> simp [FService.stopF, consumerStop]

/-- Claim C6 counterexample: a direct call to nautilus `Service.run` that
omits the host does not use "127.0.0.1" — the parameter default in the source
is "localhost". -/
theorem c6_counterexample_run_host_default :
    serviceRunArgs none none = ("localhost", 8000) ∧
    "localhost" ≠ "127.0.0.1" := by
  decide

/-- Claim C6 as amended: the CLI `runserver` command defaults are host
"127.0.0.1", port 8000, debug false, and the flask argparse defaults are port
8000, debug false, secret "supersecret"; but a direct nautilus `Service.run`
call that omits the host uses "localhost" (port still 8000), and the
`autoRegister` (true) and `ttl` (30 s) defaults exist only in the
spec-modelled directory configuration, for which no source code exists. -/
theorem c6_configuration_defaults :
    runserverArgs { port := none, host := none, debug := none } =
      (8000, "127.0.0.1", false) ∧
    flaskArgs none none none = (8000, false, "supersecret") ∧
    serviceRunArgs none none = ("localhost", 8000) ∧
    specConfigDefaults = (true, 30) := by
  decide

/-- Claim C7: in the modelled consumer loop, when message k's handler fails
the failure is logged with that message's correlationId, every message —
including all of k+1..N — is still dispatched to the handler in order, and
the consumer state is still `running` afterward. -/
theorem c7_handler_failure_isolation :
    ∀ (handler : ActionMessage → Bool) (msgs : List ActionMessage)
      (k : Nat) (hk : k < msgs.length),
      handler (msgs.get ⟨k, hk⟩) = false →
      (consumerRun handler msgs).1 = ConsumerState.running ∧
      ConsumerLog.failure (msgs.get ⟨k, hk⟩).correlationId ∈ (consumerRun handler msgs).2 ∧
      List.filterMap dispatchCid (consumerRun handler msgs).2 =
        msgs.map (fun m => m.correlationId) := by
  intro handler msgs k hk hfail
  refine ⟨rfl, ?_, ?_⟩
  · exact consumeAll_failure_mem handler msgs k hk hfail
  · exact consumeAll_cids handler msgs

/-- Claim C7 witness: the spec's scenario — messages [A, X, B] with a handler
failing exactly on actionType "X". -/
theorem c7_handler_failure_isolation_witness :
    (consumerRun scenarioHandler [msgA, msgX, msgB]).1 = ConsumerState.running ∧
    ConsumerLog.failure (([msgA, msgX, msgB].get ⟨1, by decide⟩)).correlationId ∈
      (consumerRun scenarioHandler [msgA, msgX, msgB]).2 ∧
    List.filterMap dispatchCid (consumerRun scenarioHandler [msgA, msgX, msgB]).2 =
      [msgA, msgX, msgB].map (fun m => m.correlationId) :=
  c7_handler_failure_isolation scenarioHandler [msgA, msgX, msgB] 1 (by decide) (by decide)

/-- Claim C8: whatever class-level `name` attribute a Service class ends up
with (unset, empty, the literal "Service", or a real name) and whatever
constructor argument is supplied (omitted, empty, or a real name), the `name`
of a constructed instance is assigned and non-empty, given only that the
Python class record name is non-empty. -/
theorem c8_service_name_nonempty (recordName : String) (attr ctorArg : Option String)
    (hrec : recordName ≠ "") :
    ∃ s, instanceName ctorArg (metaclassName recordName attr) = some s ∧ s ≠ "" := by
  have hcls : ∃ t, metaclassName recordName attr = some t ∧ t ≠ "" := by
    unfold metaclassName
    split
    · exact ⟨recordName, rfl, hrec⟩
    · next hcond =>
        push_neg at hcond
        obtain ⟨h1, _h2⟩ := hcond
        have htr : pyTruthy attr = true := by
          cases hb : pyTruthy attr
          · exact absurd hb h1
          · rfl
        obtain ⟨t, hat, ht⟩ := (pyTruthy_iff attr).mp htr
        exact ⟨t, hat, ht⟩
  obtain ⟨t, hX, ht⟩ := hcls
  unfold instanceName
  rw [hX, pyOrName_self]
  unfold pyOrName
  cases hb : pyTruthy ctorArg
  · exact ⟨t, by simp, ht⟩
  · obtain ⟨s, hcs, hs⟩ := (pyTruthy_iff ctorArg).mp hb
    exact ⟨s, by simp [hcs], hs⟩

/-- Claim C8 witness: a subclass named "PingService" with no class-level name
attribute and no constructor argument yields a non-empty instance name. -/
theorem c8_service_name_nonempty_witness :
    ∃ s, instanceName none (metaclassName "PingService" none) = some s ∧ s ≠ "" :=
  c8_service_name_nonempty "PingService" none none (by decide)

/-- Claim C9: the route registry is shared class-level state — the `route`
decorator invoked through any subclass appends to the single `_routes` list
owned by the `Service` base class (no subclass assigns its own), so the route
is among the endpoints `init_routes` installs on every subsequently
constructed instance of every subclass. -/
theorem c9_route_registry_shared (h : RouteHeap) (c c2 : SClass) (r : Route) :
    (routeDecorator h c r).routesOf SClass.service =
      h.routesOf SClass.service ++ [r] ∧
    r ∈ installedRoutes (routeDecorator h c r) c2 := by
  constructor
  · unfold routeDecorator
    rw [routesOwner_base c]
    simp
  · unfold installedRoutes routeDecorator
    rw [routesOwner_base c, routesOwner_base c2]
    simp

/-- Claim C10: if the service constructor raises inside `runserver` after
`_running_service` is set but before `service_instance` is assigned, the
cleanup in `ServiceManager.run` dereferences the missing `service_instance`
attribute, so the surfaced error is that `AttributeError`, not the original
startup error. -/
theorem c10_cleanup_raises_attribute_error :
    managerRun ServiceClass.nautilusService (some (PyError.userErr "ctor boom")) false false =
      ([Ev.printClosing], some (PyError.attrErr "service_instance")) ∧
    some (PyError.attrErr "service_instance") ≠
      some (PyError.userErr "ctor boom") := by
  decide

end Spec2Proof
